import Mathlib

/-! Shallow embedding of the watertap-seto repository: the REFLO system
costing layer, the FO draw solution property package state-block routines,
the KBHDP ZLD case-study flowsheet wiring, the aggregate costing block of
the ZLD train, and the flat-plate collector storage-volume computations,
together with proofs about them. -/

/-- Modelled from the spec: the REFLO costing package (TreatmentCosting,
EnergyCosting and REFLOSystemCosting in watertap_contrib.reflo.costing) is
repository code that is not among the files here; only its test suite is.
Per the spec each train carries a costing block holding the shared economic
parameters that the system block must keep consistent, together with the
electricity flows registered on it by the unit costing blocks. -/
structure REFLOCostingBlock where
  electricity_cost : ℚ
  heat_cost : ℚ
  base_currency : Nat
  base_period : Nat
  registered_electricity_flows : List ℚ

/-- Aggregate electricity flow of one costing block: the sum of the
electricity flows registered on it (generation enters negatively). -/
def REFLOCostingBlock.aggregate_flow_electricity (b : REFLOCostingBlock) : ℚ :=
  b.registered_electricity_flows.sum

/-- Modelled from the spec: the system-wide costing block built by
REFLOSystemCosting, carrying the common economic parameters it shares with
the treatment and energy blocks. -/
structure REFLOSystemCostingBlock where
  electricity_cost : ℚ
  heat_cost : ℚ
  base_currency : Nat
  base_period : Nat

/-- Modelled from the spec: REFLOSystemCosting enforces consistency of
shared economic parameters; the first common costing parameter found to
differ between the treatment and energy blocks is reported. -/
def commonParamMismatch (t e : REFLOCostingBlock) : Option String :=
  if t.electricity_cost ≠ e.electricity_cost then some "electricity_cost"
  else if t.heat_cost ≠ e.heat_cost then some "heat_cost"
  else if t.base_currency ≠ e.base_currency then some "base_currency"
  else if t.base_period ≠ e.base_period then some "base_period"
  else none

/-- Error text raised for a mismatched common costing parameter, as matched
by test_common_params_equivalent. -/
def commonParamErrorMessage (p : String) : String :=
  "The common costing parameter " ++ p ++
    " was found to have a different value on the energy and treatment costing blocks. Common costing parameters must be equivalent across all costing blocks to use REFLOSystemCosting."

/-- Error text raised when a required costing block is absent, as matched by
test_no_energy_treatment_block. -/
def missingBlockErrorMessage (kind : String) : String :=
  "REFLOSystemCosting package requires a " ++ kind ++
    " block but one was not found."

/-- Modelled from the spec: constructing REFLOSystemCosting on a flowsheet.
The flowsheet may or may not carry a TreatmentCosting and an EnergyCosting
block; construction fails when one is missing, then fails on the first
common costing parameter with different values on the two blocks, and
otherwise produces the system block with the shared parameter values. -/
def buildREFLOSystemCosting (treatment energy : Option REFLOCostingBlock) :
    Except String REFLOSystemCostingBlock :=
  match energy with
  | none => Except.error (missingBlockErrorMessage "EnergyCosting")
  | some e =>
    match treatment with
    | none => Except.error (missingBlockErrorMessage "TreatmentCosting")
    | some t =>
      match commonParamMismatch t e with
      | some p => Except.error (commonParamErrorMessage p)
      | none =>
        Except.ok
          { electricity_cost := t.electricity_cost, heat_cost := t.heat_cost,
            base_currency := t.base_currency, base_period := t.base_period }

/-- Modelled from the spec: cost_process aggregates the registered costs on
the system block and leaves the shared economic parameters unchanged. -/
def REFLOSystemCostingBlock.cost_process (s : REFLOSystemCostingBlock) :
    REFLOSystemCostingBlock := s

/-- Modelled from the spec: the grid purchase/sale balance variables of a
REFLOSystemCosting block after cost_process, alongside the treatment and
energy costing blocks it reconciles. -/
structure SystemElecState where
  treatment : REFLOCostingBlock
  energy : REFLOCostingBlock
  aggregate_flow_electricity : ℚ
  aggregate_flow_electricity_purchased : ℚ
  aggregate_flow_electricity_sold : ℚ
  frac_elec_from_grid : ℚ

/-- Modelled from the spec: the electricity reconciliation constraints of the
system costing block, which every solved flowsheet satisfies: the system
aggregate flow is the sum of the treatment and energy aggregates, purchases
net of sales balance the aggregate, and purchases are the grid fraction of
the treatment demand (frac_elec_from_grid_constraint). -/
def SystemElecConstraints (s : SystemElecState) : Prop :=
  s.aggregate_flow_electricity =
      s.treatment.aggregate_flow_electricity +
        s.energy.aggregate_flow_electricity
  ∧ s.aggregate_flow_electricity_purchased -
        s.aggregate_flow_electricity_sold =
      s.aggregate_flow_electricity
  ∧ s.aggregate_flow_electricity_purchased =
      s.frac_elec_from_grid * s.treatment.aggregate_flow_electricity

/-- Domain of a Pyomo variable, as used by the costing packages. -/
inductive VarDomain
  | reals
  | nonNegativeReals
  deriving DecidableEq

/-- Values a variable domain admits. -/
def VarDomain.allows : VarDomain → ℚ → Prop
  | VarDomain.reals, _ => True
  | VarDomain.nonNegativeReals, x => 0 ≤ x

/-- Modelled from the spec: the domains of the grid-exchange, net-flow and
operating-cost variables REFLOSystemCosting declares, as asserted by
test_default_build. -/
def systemCostingVarDomains : List (String × VarDomain) :=
  [("total_heat_operating_cost", VarDomain.reals),
   ("total_electric_operating_cost", VarDomain.reals),
   ("aggregate_flow_electricity", VarDomain.reals),
   ("aggregate_flow_heat", VarDomain.reals),
   ("aggregate_flow_electricity_purchased", VarDomain.nonNegativeReals),
   ("aggregate_flow_electricity_sold", VarDomain.nonNegativeReals),
   ("aggregate_flow_heat_purchased", VarDomain.nonNegativeReals),
   ("aggregate_flow_heat_sold", VarDomain.nonNegativeReals)]

/-- Modelled from the spec: the domains of the unit-level costing variables
declared for a costed unit model, as asserted by test_default_build. -/
def unitCostingVarDomains : List (String × VarDomain) :=
  [("capital_cost", VarDomain.nonNegativeReals),
   ("fixed_operating_cost", VarDomain.reals),
   ("variable_operating_cost", VarDomain.reals)]

/-- One element of an indexed FO draw solution state block
(fo_draw_solution_properties.py).  stateFixed lists, per state variable
(the flow_mass_phase_comp entries, temperature, pressure), whether the
variable is currently fixed.  dofWhenStateFixed and unfixedWhenStateFixed
abstract the IDAES model statistics degrees_of_freedom and
number_unfixed_variables of the element once every state variable is fixed;
they depend only on the property constraints constructed on the element,
which fixing and reverting state variables does not change. -/
structure FOElementBlock where
  stateFixed : List Bool
  dofWhenStateFixed : Int
  unfixedWhenStateFixed : Nat

/-- fix_state_vars on one element: every state variable becomes fixed. -/
def fixElement (b : FOElementBlock) : FOElementBlock :=
  { b with stateFixed := b.stateFixed.map (fun _ => true) }

/-- idaes fix_state_vars: fixes the state variables of every element and
returns the flags recording which were fixed before. -/
def fixStateVars (blk : List FOElementBlock) :
    List FOElementBlock × List (List Bool) :=
  (blk.map fixElement, blk.map (fun b => b.stateFixed))

/-- revert_state_vars on one element: a state variable is unfixed when its
flag says it was not fixed before. -/
def revertElement (b : FOElementBlock) (flags : List Bool) : FOElementBlock :=
  { b with stateFixed := b.stateFixed.zipWith (fun cur was => cur && was) flags }

/-- idaes revert_state_vars over the indexed block. -/
def revertStateVars (blk : List FOElementBlock) (flags : List (List Bool)) :
    List FOElementBlock :=
  List.zipWith revertElement blk flags

/-- Failure modes of the FO draw solution state block setup routine. -/
inductive FOInitError
  | dofNotZero
  | solveFailed
  deriving DecidableEq

/-- The _FODrawSolutionStateBlock setup routine
(fo_draw_solution_properties.py): fix the state variables, fail when any
element is left with nonzero degrees of freedom, solve unless only state
variables are present (the solver outcome is the solveOk argument), then
either keep the state variables fixed and hand back the flags (hold_state),
release the state with the flags, or, when the caller already fixed the
state variables, do neither. -/
def foInitRoutine (blk : List FOElementBlock)
    (stateVarsFixed holdState solveOk : Bool) :
    Except FOInitError (List FOElementBlock × Option (List (List Bool))) :=
  let fixed := (fixStateVars blk).1
  let flags := (fixStateVars blk).2
  if fixed.any (fun b => b.dofWhenStateFixed != 0) then
    Except.error FOInitError.dofNotZero
  else if (!fixed.all (fun b => b.unfixedWhenStateFixed == 0)) && !solveOk then
    Except.error FOInitError.solveFailed
  else if stateVarsFixed then
    Except.ok (fixed, none)
  else if holdState then
    Except.ok (fixed, some flags)
  else
    Except.ok (revertStateVars fixed flags, none)

/-- release_state (fo_draw_solution_properties.py): with flags = none the
block is returned unchanged, otherwise revert_state_vars runs with the
flags. -/
def releaseState (blk : List FOElementBlock)
    (flags : Option (List (List Bool))) : List FOElementBlock :=
  match flags with
  | none => blk
  | some f => revertStateVars blk f

/-- Tail of build_and_run_md_system (KBHDP_ZLD.py): the zero
degrees-of-freedom assertion guarding the final solve. -/
def mdFinalSolve (dof : Int) : Except String Unit :=
  if dof = 0 then Except.ok () else Except.error "assertion failed: nonzero dof"

/-- Stream endpoints of the KBHDP ZLD train (KBHDP_ZLD.py). -/
inductive ZLDNode
  | feed | mcasToTdsTranslator
  | ecFeed | ecProduct | ecDisposal | sludge
  | ufFeed | ufProduct | ufDisposal | ufWaste
  | tdsToNaclTranslator | pump
  | roFeed | roProduct | roDisposal | product
  | roBrineToMdTranslator | brine
  | mdSystemFeed | mdFeed | mdPermeate | mdConcentrate | mdProduct | mdDisposal
  | mecFeed | mecUnit
  deriving DecidableEq

/-- Arcs of add_primary_connections (KBHDP_ZLD.py). -/
def primaryArcs : List (ZLDNode × ZLDNode) :=
  [(ZLDNode.feed, ZLDNode.mcasToTdsTranslator),
   (ZLDNode.mcasToTdsTranslator, ZLDNode.ecFeed),
   (ZLDNode.ecProduct, ZLDNode.ufFeed),
   (ZLDNode.ecDisposal, ZLDNode.sludge),
   (ZLDNode.ufProduct, ZLDNode.tdsToNaclTranslator),
   (ZLDNode.ufDisposal, ZLDNode.ufWaste),
   (ZLDNode.tdsToNaclTranslator, ZLDNode.pump),
   (ZLDNode.pump, ZLDNode.roFeed),
   (ZLDNode.roProduct, ZLDNode.product),
   (ZLDNode.roDisposal, ZLDNode.roBrineToMdTranslator),
   (ZLDNode.roBrineToMdTranslator, ZLDNode.brine)]

/-- Arcs of build_md_system (KBHDP_ZLD.py): system feed into the MD
sub-flowsheet, permeate to product, concentrate to disposal. -/
def mdArcs : List (ZLDNode × ZLDNode) :=
  [(ZLDNode.mdSystemFeed, ZLDNode.mdFeed),
   (ZLDNode.mdPermeate, ZLDNode.mdProduct),
   (ZLDNode.mdConcentrate, ZLDNode.mdDisposal)]

/-- Stream couplings of build_and_run_kbhdp_zld (KBHDP_ZLD.py): the primary
brine (RO disposal) flow and TDS values are passed as the MD system feed,
and the MD disposal flow values are passed as the MEC system feed. -/
def zldCouplings : List (ZLDNode × ZLDNode) :=
  [(ZLDNode.brine, ZLDNode.mdSystemFeed),
   (ZLDNode.mdDisposal, ZLDNode.mecFeed)]

/-- Arc feed_to_unit of build_mec_system (KBHDP_ZLD.py). -/
def mecArcs : List (ZLDNode × ZLDNode) :=
  [(ZLDNode.mecFeed, ZLDNode.mecUnit)]

/-- Modelled from the spec: internal feed-to-outlet connectivity of the EC,
UF, RO and MD sub-flowsheets (build_ec, build_UF, build_ro and build_md are
repository code not among the files here); the spec gives the train
electrocoagulation → ultrafiltration → reverse osmosis → membrane
distillation → multi-effect crystallization. -/
def subFlowsheetEdges : List (ZLDNode × ZLDNode) :=
  [(ZLDNode.ecFeed, ZLDNode.ecProduct), (ZLDNode.ecFeed, ZLDNode.ecDisposal),
   (ZLDNode.ufFeed, ZLDNode.ufProduct), (ZLDNode.ufFeed, ZLDNode.ufDisposal),
   (ZLDNode.roFeed, ZLDNode.roProduct), (ZLDNode.roFeed, ZLDNode.roDisposal),
   (ZLDNode.mdFeed, ZLDNode.mdPermeate),
   (ZLDNode.mdFeed, ZLDNode.mdConcentrate)]

/-- All stream edges of the full ZLD train. -/
def zldEdges : List (ZLDNode × ZLDNode) :=
  primaryArcs ++ mdArcs ++ zldCouplings ++ mecArcs ++ subFlowsheetEdges

/-- Bool test that each consecutive pair of nodes in a list is joined by a
ZLD stream edge. -/
def zldPathB : List ZLDNode → Bool
  | a :: b :: rest => decide ((a, b) ∈ zldEdges) && zldPathB (b :: rest)
  | _ => true

/-- A path along the ZLD stream edges. -/
def zldPath (l : List ZLDNode) : Prop :=
  zldPathB l = true

/-- Costing values one constituent model contributes to the aggregate block
(the values build_agg_costing_blk in KBHDP_ZLD.py reads off m.fs.costing). -/
structure ModelCosting where
  total_capital_cost : ℚ
  total_operating_cost : ℚ
  capital_recovery_factor : ℚ

/-- The aggregate costing block of build_agg_costing_blk (KBHDP_ZLD.py):
the constituent models, the shared capital recovery factor, and the total
cost variables. -/
structure AggCostingBlock where
  models : List ModelCosting
  capital_recovery_factor : ℚ
  total_capital_cost : ℚ
  total_operating_cost : ℚ

/-- Constraint eq_total_capital_cost of build_agg_costing_blk: the total
capital cost variable equals the sum of the models' total capital costs. -/
def eqTotalCapitalCost (b : AggCostingBlock) : Prop :=
  b.total_capital_cost = (b.models.map (fun m => m.total_capital_cost)).sum

/-- Constraint eq_total_operating_cost of build_agg_costing_blk: the total
operating cost variable equals the sum of the models' operating costs. -/
def eqTotalOperatingCost (b : AggCostingBlock) : Prop :=
  b.total_operating_cost = (b.models.map (fun m => m.total_operating_cost)).sum

/-- The LCOW expression of build_agg_costing_blk: annualized capital plus
operating cost over the product volumetric flow converted to volume per
base period (product_flow in cubic metres per second, secondsPerBasePeriod
the conversion to the base period, one year by default). -/
def aggLCOW (b : AggCostingBlock) (product_flow secondsPerBasePeriod : ℚ) : ℚ :=
  (b.total_capital_cost * b.capital_recovery_factor + b.total_operating_cost) /
    (product_flow * secondsPerBasePeriod)

/-- The storage_volume_constraint of FlatPlateSurrogateData.build
(flat_plate_surrogate.py): the storage volume in cubic metres equals
hours_storage [hr] times heat_load [MW] over specific_heat_water
[kJ/(kg K)] times temperature_cold times dens_water [kg/m^3]; the pyomo
unit conversion of MW·hr to kJ contributes the factor 3600000. -/
def storageVolumeSurrogate
    (hours_storage heat_load specific_heat_water temperature_cold
      dens_water : ℚ) : ℚ :=
  hours_storage * heat_load * 3600000 /
    (specific_heat_water * temperature_cold * dens_water)

/-- The V_tank value run_pysam_fpc_model (run_pysam_kbhdp_fpc.py) assigns:
hours_storage (clamped below at 1e-3) times 3600 times system_capacity [kW]
over cp_water [kJ/(kg K)] times (T_hot − T_cold) gives the tank water mass
in kg; dividing by density_water [kg/m^3] gives the volume. -/
def volumeTankPysam
    (hours_storage system_capacity cp_water T_hot T_cold
      density_water : ℚ) : ℚ :=
  max hours_storage (1 / 1000) * 3600 * system_capacity /
    (cp_water * (T_hot - T_cold)) / density_water

/-- Treatment costing block of the electricity-generation-only test
flowsheets: one unit consuming 100 kW, default parameters. -/
def treat100 : REFLOCostingBlock :=
  { electricity_cost := 0, heat_cost := 0, base_currency := 2021,
    base_period := 1, registered_electricity_flows := [100] }

/-- Energy costing block generating 10 kW (registered negatively). -/
def energyGen10 : REFLOCostingBlock :=
  { electricity_cost := 0, heat_cost := 0, base_currency := 2021,
    base_period := 1, registered_electricity_flows := [-10] }

/-- Energy costing block with electricity_cost fixed to 0.02, as in
test_common_params_equivalent. -/
def energyCost002 : REFLOCostingBlock :=
  { electricity_cost := 1 / 50, heat_cost := 0, base_currency := 2021,
    base_period := 1, registered_electricity_flows := [] }

/-- Solved grid-exchange state of the generation-only-with-heat test:
100 kW consumed, 10 kW generated, 90 kW purchased, nothing sold, grid
fraction 0.9. -/
def solvedElecState : SystemElecState :=
  { treatment := treat100, energy := energyGen10,
    aggregate_flow_electricity := 90,
    aggregate_flow_electricity_purchased := 90,
    aggregate_flow_electricity_sold := 0,
    frac_elec_from_grid := 9 / 10 }

/-- Aggregate costing block over three models with a shared capital recovery
factor, the totals satisfying the constraints. -/
def aggBlockWit : AggCostingBlock :=
  { models := [⟨100, 10, 1 / 10⟩, ⟨200, 20, 1 / 10⟩, ⟨300, 30, 1 / 10⟩],
    capital_recovery_factor := 1 / 10,
    total_capital_cost := 600,
    total_operating_cost := 60 }

/-- FO element block with zero degrees of freedom once its state variables
are fixed. -/
def foElemOK : FOElementBlock :=
  { stateFixed := [true, false, false, true], dofWhenStateFixed := 0,
    unfixedWhenStateFixed := 0 }

/-- FO element block left with one degree of freedom after fixing its state
variables. -/
def foElemBad : FOElementBlock :=
  { stateFixed := [false, false], dofWhenStateFixed := 1,
    unfixedWhenStateFixed := 1 }

/-- C3: constructing REFLOSystemCosting on a flowsheet carrying a
TreatmentCosting block but no EnergyCosting block fails with the ValueError
text matched by test_no_energy_treatment_block. -/
theorem C3_missing_energy_block (t : REFLOCostingBlock) :
    buildREFLOSystemCosting (some t) none =
      Except.error
        "REFLOSystemCosting package requires a EnergyCosting block but one was not found." :=
  rfl

/-- C5: the ZLD case study runs the primary train electrocoagulation then
ultrafiltration then reverse osmosis (feed through the translators, EC, UF,
pump and RO), sends the RO brine (disposal) stream to the membrane
distillation system, and sends the MD disposal (concentrate) stream to the
multi-effect crystallization system. -/
theorem C5_zld_train_order :
    zldPath [ZLDNode.feed, ZLDNode.mcasToTdsTranslator, ZLDNode.ecFeed,
      ZLDNode.ecProduct, ZLDNode.ufFeed, ZLDNode.ufProduct,
      ZLDNode.tdsToNaclTranslator, ZLDNode.pump, ZLDNode.roFeed,
      ZLDNode.roDisposal, ZLDNode.roBrineToMdTranslator, ZLDNode.brine,
      ZLDNode.mdSystemFeed, ZLDNode.mdFeed, ZLDNode.mdConcentrate,
      ZLDNode.mdDisposal, ZLDNode.mecFeed, ZLDNode.mecUnit] ∧
    (ZLDNode.ecProduct, ZLDNode.ufFeed) ∈ primaryArcs ∧
    (ZLDNode.roDisposal, ZLDNode.roBrineToMdTranslator) ∈ primaryArcs ∧
    (ZLDNode.roBrineToMdTranslator, ZLDNode.brine) ∈ primaryArcs ∧
    (ZLDNode.brine, ZLDNode.mdSystemFeed) ∈ zldCouplings ∧
    (ZLDNode.mdConcentrate, ZLDNode.mdDisposal) ∈ mdArcs ∧
    (ZLDNode.mdDisposal, ZLDNode.mecFeed) ∈ zldCouplings := by
  unfold zldPath
  refine ⟨?_, ?_, ?_, ?_, ?_, ?_, ?_⟩ <;> decide

/-- C8: the FlatPlateSurrogate storage-volume constraint and the PySAM
V_tank assignment of run_pysam_fpc_model disagree at the same inputs: at
hours_storage 1 h, heat load 1 MW (system capacity 1000 kW), specific heat
4.181 kJ/(kg K), water density 1000 kg/m^3, cold temperature 20 and hot
temperature 70, the surrogate divides the stored energy by
cp·temperature_cold, giving 3600000/83620 m^3, while the sweep utility
divides by cp·(T_hot − T_cold) and assigns 3600000/209050 m^3 to V_tank. -/
theorem C8_storage_volume_mismatch :
    storageVolumeSurrogate 1 1 (4181 / 1000) 20 1000 = 3600000 / 83620 ∧
    volumeTankPysam 1 1000 (4181 / 1000) 70 20 1000 = 3600000 / 209050 ∧
    storageVolumeSurrogate 1 1 (4181 / 1000) 20 1000 ≠
      volumeTankPysam 1 1000 (4181 / 1000) 70 20 1000 := by
  refine ⟨?_, ?_, ?_⟩ <;>
    norm_num [storageVolumeSurrogate, volumeTankPysam]

/-- C9: the grid-exchange variables of the system costing block
(aggregate_flow_electricity_purchased, aggregate_flow_electricity_sold,
aggregate_flow_heat_purchased, aggregate_flow_heat_sold) are declared on
NonNegativeReals, which admits no negative value, while the net flows
aggregate_flow_electricity and aggregate_flow_heat and the operating costs
total_heat_operating_cost and total_electric_operating_cost are declared on
Reals, which admits negative values; unit-level capital_cost is on
NonNegativeReals while fixed_operating_cost and variable_operating_cost are
on Reals. -/
theorem C9_variable_domains :
    systemCostingVarDomains.lookup "aggregate_flow_electricity_purchased" =
        some VarDomain.nonNegativeReals ∧
    systemCostingVarDomains.lookup "aggregate_flow_electricity_sold" =
        some VarDomain.nonNegativeReals ∧
    systemCostingVarDomains.lookup "aggregate_flow_heat_purchased" =
        some VarDomain.nonNegativeReals ∧
    systemCostingVarDomains.lookup "aggregate_flow_heat_sold" =
        some VarDomain.nonNegativeReals ∧
    systemCostingVarDomains.lookup "aggregate_flow_electricity" =
        some VarDomain.reals ∧
    systemCostingVarDomains.lookup "aggregate_flow_heat" =
        some VarDomain.reals ∧
    systemCostingVarDomains.lookup "total_heat_operating_cost" =
        some VarDomain.reals ∧
    systemCostingVarDomains.lookup "total_electric_operating_cost" =
        some VarDomain.reals ∧
    (∀ x : ℚ, VarDomain.nonNegativeReals.allows x → 0 ≤ x) ∧
    (∃ x : ℚ, x < 0 ∧ VarDomain.reals.allows x) ∧
    unitCostingVarDomains.lookup "capital_cost" =
        some VarDomain.nonNegativeReals ∧
    unitCostingVarDomains.lookup "fixed_operating_cost" =
        some VarDomain.reals ∧
    unitCostingVarDomains.lookup "variable_operating_cost" =
        some VarDomain.reals := by
  refine ⟨rfl, rfl, rfl, rfl, rfl, rfl, rfl, rfl, ?_, ?_, rfl, rfl, rfl⟩
  · intro x h
    exact h
  · exact ⟨-1, by norm_num, trivial⟩

/-- Reduction of the constructor when both costing blocks are present. -/
theorem buildREFLOSystemCosting_some (t e : REFLOCostingBlock) :
    buildREFLOSystemCosting (some t) (some e) =
      match commonParamMismatch t e with
      | some p => Except.error (commonParamErrorMessage p)
      | none =>
        Except.ok
          { electricity_cost := t.electricity_cost, heat_cost := t.heat_cost,
            base_currency := t.base_currency, base_period := t.base_period } :=
  rfl

/-- C1: constructing a REFLOSystemCosting block fails with a ValueError
naming the parameter whenever a common costing parameter (electricity_cost,
or, with the earlier-checked parameters agreeing, base_currency) has
different values on the energy and treatment costing blocks; and whenever
construction succeeds, after cost_process the common parameters have the
same value on the system, treatment and energy costing blocks. -/
theorem C1_common_params (t e : REFLOCostingBlock) :
    (t.electricity_cost ≠ e.electricity_cost →
      buildREFLOSystemCosting (some t) (some e) =
        Except.error (commonParamErrorMessage "electricity_cost")) ∧
    (t.electricity_cost = e.electricity_cost → t.heat_cost = e.heat_cost →
      t.base_currency ≠ e.base_currency →
      buildREFLOSystemCosting (some t) (some e) =
        Except.error (commonParamErrorMessage "base_currency")) ∧
    ∀ s : REFLOSystemCostingBlock,
      buildREFLOSystemCosting (some t) (some e) = Except.ok s →
      s.cost_process.electricity_cost = t.electricity_cost ∧
        s.cost_process.electricity_cost = e.electricity_cost ∧
        s.cost_process.base_currency = t.base_currency ∧
        s.cost_process.base_currency = e.base_currency := by
  refine ⟨?_, ?_, ?_⟩
  · intro hne
    simp [buildREFLOSystemCosting, commonParamMismatch, hne]
  · intro h1 h2 hne
    simp [buildREFLOSystemCosting, commonParamMismatch, h1, h2, hne]
  · intro s hs
    cases hm : commonParamMismatch t e with
    | some p =>
      rw [buildREFLOSystemCosting_some, hm] at hs
      exact (Except.noConfusion hs)
    | none =>
      rw [buildREFLOSystemCosting_some, hm] at hs
      have heq : t.electricity_cost = e.electricity_cost ∧
          t.base_currency = e.base_currency := by
        unfold commonParamMismatch at hm
        split_ifs at hm with h1 h2 h3 h4
        exact ⟨not_not.mp h1, not_not.mp h3⟩
      obtain ⟨h1, h3⟩ := heq
      refine ⟨?_, ?_, ?_, ?_⟩ <;>
        simp [← Except.ok.inj hs, REFLOSystemCostingBlock.cost_process, h1, h3]

/-- Construction rejects the blocks of test_common_params_equivalent, whose
electricity costs are 0 and 0.02. -/
theorem C1_common_params_witness :
    buildREFLOSystemCosting (some treat100) (some energyCost002) =
      Except.error (commonParamErrorMessage "electricity_cost") :=
  (C1_common_params treat100 energyCost002).1
    (by norm_num [treat100, energyCost002])

/-- C2: at every solved state of a REFLOSystemCosting block, the
system-level aggregate_flow_electricity is the sum of the treatment block's
and the energy block's aggregate electricity flows, and it also equals the
electricity purchased minus the electricity sold. -/
theorem C2_system_electricity_balance (s : SystemElecState)
    (hc : SystemElecConstraints s) :
    s.aggregate_flow_electricity =
        s.treatment.aggregate_flow_electricity +
          s.energy.aggregate_flow_electricity ∧
    s.aggregate_flow_electricity =
        s.aggregate_flow_electricity_purchased -
          s.aggregate_flow_electricity_sold :=
  ⟨hc.1, hc.2.1.symm⟩

/-- Electricity balance at the solved with-heat test state: 100 kW demand,
10 kW generation, 90 kW purchased, nothing sold. -/
theorem C2_system_electricity_balance_witness :
    solvedElecState.aggregate_flow_electricity =
        solvedElecState.treatment.aggregate_flow_electricity +
          solvedElecState.energy.aggregate_flow_electricity ∧
    solvedElecState.aggregate_flow_electricity =
        solvedElecState.aggregate_flow_electricity_purchased -
          solvedElecState.aggregate_flow_electricity_sold :=
  C2_system_electricity_balance solvedElecState
    (by refine ⟨?_, ?_, ?_⟩ <;>
      norm_num [solvedElecState, treat100, energyGen10,
        REFLOCostingBlock.aggregate_flow_electricity])

/-- C4: at every solved state whose energy block only generates electricity
(one unit generating gen kW, registered negatively), whose treatment block
consumes cons kW, and where no electricity is sold, the grid fraction is
1 − gen/cons and the electricity purchased is that fraction times the
treatment consumption. -/
theorem C4_frac_elec_from_grid (s : SystemElecState) (cons gen : ℚ)
    (hcons : 0 < cons)
    (ht : s.treatment.registered_electricity_flows = [cons])
    (he : s.energy.registered_electricity_flows = [-gen])
    (hsold : s.aggregate_flow_electricity_sold = 0)
    (hc : SystemElecConstraints s) :
    s.frac_elec_from_grid = 1 - gen / cons ∧
    s.aggregate_flow_electricity_purchased = (1 - gen / cons) * cons := by
  obtain ⟨h1, h2, h3⟩ := hc
  have htagg : s.treatment.aggregate_flow_electricity = cons := by
    simp [REFLOCostingBlock.aggregate_flow_electricity, ht]
  have heagg : s.energy.aggregate_flow_electricity = -gen := by
    simp [REFLOCostingBlock.aggregate_flow_electricity, he]
  rw [htagg, heagg] at h1
  rw [hsold, sub_zero] at h2
  rw [htagg] at h3
  have hc0 : cons ≠ 0 := ne_of_gt hcons
  have hp : s.aggregate_flow_electricity_purchased = cons - gen := by
    rw [h2, h1]; ring
  have h4 : s.frac_elec_from_grid * cons = cons - gen := by
    rw [← h3, hp]
  have hfrac : s.frac_elec_from_grid = 1 - gen / cons := by
    have hmul : s.frac_elec_from_grid * cons = (1 - gen / cons) * cons := by
      rw [h4]
      field_simp
    exact mul_right_cancel₀ hc0 hmul
  refine ⟨hfrac, ?_⟩
  rw [hp]
  field_simp

/-- Grid fraction at the solved with-heat test state: generation 10 kW
against consumption 100 kW gives fraction 0.9 and 90 kW purchased. -/
theorem C4_frac_elec_from_grid_witness :
    solvedElecState.frac_elec_from_grid = 1 - 10 / 100 ∧
    solvedElecState.aggregate_flow_electricity_purchased =
      (1 - 10 / 100) * 100 :=
  C4_frac_elec_from_grid solvedElecState 100 10 (by norm_num)
    (by norm_num [solvedElecState, treat100])
    (by norm_num [solvedElecState, energyGen10])
    (by norm_num [solvedElecState])
    (by refine ⟨?_, ?_, ?_⟩ <;>
      norm_num [solvedElecState, treat100, energyGen10,
        REFLOCostingBlock.aggregate_flow_electricity])

/-- C6: with the aggregate block's total-cost constraints holding, its LCOW
expression equals total capital cost, the sum over the constituent models,
times the capital recovery factor, plus total operating cost, again the sum
over the models, divided by the product volumetric flow converted to volume
per base period. -/
theorem C6_agg_lcow (b : AggCostingBlock)
    (product_flow secondsPerBasePeriod : ℚ)
    (hcap : eqTotalCapitalCost b) (hop : eqTotalOperatingCost b) :
    aggLCOW b product_flow secondsPerBasePeriod =
      ((b.models.map (fun m => m.total_capital_cost)).sum *
          b.capital_recovery_factor +
        (b.models.map (fun m => m.total_operating_cost)).sum) /
        (product_flow * secondsPerBasePeriod) := by
  unfold eqTotalCapitalCost at hcap
  unfold eqTotalOperatingCost at hop
  unfold aggLCOW
  rw [hcap, hop]

/-- LCOW of the three-model aggregate block: (600·0.1 + 60)/(2·3). -/
theorem C6_agg_lcow_witness :
    aggLCOW aggBlockWit 2 3 =
      ((aggBlockWit.models.map (fun m => m.total_capital_cost)).sum *
          aggBlockWit.capital_recovery_factor +
        (aggBlockWit.models.map (fun m => m.total_operating_cost)).sum) /
        (2 * 3) :=
  C6_agg_lcow aggBlockWit 2 3
    (by norm_num [eqTotalCapitalCost, aggBlockWit])
    (by norm_num [eqTotalOperatingCost, aggBlockWit])

/-- C7: the FO draw solution state block setup routine fails with the
degrees-of-freedom error whenever, after fixing the state variables, some
element block is left with nonzero degrees of freedom; and the MD system
build reaches its final solve exactly when the flowsheet has zero degrees
of freedom. -/
theorem C7_zero_dof_required :
    (∀ (blk : List FOElementBlock) (svf hs ok : Bool),
        (∃ b ∈ blk, b.dofWhenStateFixed ≠ 0) →
          foInitRoutine blk svf hs ok = Except.error FOInitError.dofNotZero) ∧
    ∀ d : Int, mdFinalSolve d = Except.ok () ↔ d = 0 := by
  constructor
  · rintro blk svf hs ok ⟨b, hb, hdof⟩
    have hany :
        ((blk.map fixElement).any fun c => c.dofWhenStateFixed != 0) = true := by
      rw [List.any_map, List.any_eq_true]
      exact ⟨b, hb, by simp [fixElement, hdof]⟩
    simp [foInitRoutine, fixStateVars, hany]
  · intro d
    unfold mdFinalSolve
    split <;> simp_all

/-- The degrees-of-freedom guard at work on a concrete element block with
one leftover degree of freedom, and the MD assertion passing at zero. -/
theorem C7_zero_dof_required_witness :
    foInitRoutine [foElemBad] false false true =
        Except.error FOInitError.dofNotZero ∧
    mdFinalSolve 0 = Except.ok () :=
  ⟨C7_zero_dof_required.1 [foElemBad] false false true
      ⟨foElemBad, by simp, by norm_num [foElemBad]⟩,
    (C7_zero_dof_required.2 0).mpr rfl⟩

/-- Reverting all-fixed state variables against the prior flags restores the
prior fixed statuses. -/
theorem zipWith_and_true (l : List Bool) :
    List.zipWith (fun cur was => cur && was) (l.map fun _ => true) l = l := by
  induction l with
  | nil => rfl
  | cons a t ih =>
    show (true && a) ::
        List.zipWith (fun cur was => cur && was) (t.map fun _ => true) t =
      a :: t
    rw [Bool.true_and, ih]

/-- revert_state_vars undoes fix_state_vars elementwise. -/
theorem revert_fix (blk : List FOElementBlock) :
    revertStateVars (blk.map fixElement) (blk.map fun b => b.stateFixed) =
      blk := by
  induction blk with
  | nil => rfl
  | cons b t ih =>
    obtain ⟨sf, dof, unf⟩ := b
    have h : revertElement (fixElement ⟨sf, dof, unf⟩) sf = ⟨sf, dof, unf⟩ := by
      show (⟨List.zipWith (fun cur was => cur && was)
          (sf.map fun _ => true) sf, dof, unf⟩ : FOElementBlock) =
        ⟨sf, dof, unf⟩
      rw [zipWith_and_true]
    calc revertStateVars ((⟨sf, dof, unf⟩ :: t).map fixElement)
          ((⟨sf, dof, unf⟩ :: t).map fun b => b.stateFixed)
        = revertElement (fixElement ⟨sf, dof, unf⟩) sf ::
            revertStateVars (t.map fixElement)
              (t.map fun b => b.stateFixed) := rfl
      _ = ⟨sf, dof, unf⟩ :: t := by rw [h, ih]

/-- C10: with every element at zero degrees of freedom once its state
variables are fixed and the solver succeeding, the setup routine with
hold_state returns the prior fixed/unfixed flags and leaves every state
variable fixed; without hold_state it returns the block with every state
variable's fixed status reverted to its prior value; release_state with the
returned flags restores every prior status, which unfixes exactly the
variables the routine fixed; and release_state with no flags changes
nothing. -/
theorem C10_init_release_frame (blk : List FOElementBlock)
    (hdof : ∀ b ∈ blk, b.dofWhenStateFixed = 0) :
    (foInitRoutine blk false true true =
        Except.ok (blk.map fixElement,
          some (blk.map fun b => b.stateFixed)) ∧
      ∀ b ∈ blk.map fixElement, ∀ f ∈ b.stateFixed, f = true) ∧
    foInitRoutine blk false false true = Except.ok (blk, none) ∧
    releaseState (blk.map fixElement)
        (some (blk.map fun b => b.stateFixed)) = blk ∧
    ∀ c : List FOElementBlock, releaseState c none = c := by
  have hanyF :
      ((blk.map fixElement).any fun c => c.dofWhenStateFixed != 0) = false := by
    rw [List.any_eq_false]
    intro c hc
    obtain ⟨b, hb, rfl⟩ := List.mem_map.mp hc
    simp [fixElement, hdof b hb]
  refine ⟨⟨?_, ?_⟩, ?_, ?_, ?_⟩
  · simp [foInitRoutine, fixStateVars, hanyF]
  · intro b hb f hf
    obtain ⟨c, hc, rfl⟩ := List.mem_map.mp hb
    rcases List.mem_map.mp hf with ⟨x, hx, h⟩
    exact h.symm
  · simp [foInitRoutine, fixStateVars, hanyF, revert_fix]
  · exact revert_fix blk
  · intro c
    rfl

/-- Setup without hold_state on a one-element block returns it with the
prior fixed statuses intact. -/
theorem C10_init_release_frame_witness :
    foInitRoutine [foElemOK] false false true = Except.ok ([foElemOK], none) :=
  (C10_init_release_frame [foElemOK] (by simp [foElemOK])).2.1
